import Mathlib

/-!
Verification of the `agentize` template repository (C and C++ hello-world
templates). The repository contains:

* `templates/cxx/src/hello.cpp` — `get_greeting` / `print_greeting` for the
  C++ variant (implemented);
* `templates/cxx/include/__NAME__/hello.hpp` — their declarations;
* `templates/c/include/__NAME__/hello.h` — declarations of the C variant's
  `get_greeting` / `print_greeting` (the C implementation file is not in the
  repository);
* `templates/c/tests/test_hello.c`, `templates/cxx/tests/test_hello.cpp` —
  assertion-based greeting tests;
* `templates/cxx/tests/test_main.cpp` — an exact-output test of a separate
  `hello()` function (whose definition is not in the repository).

Strings are embedded as Lean `String`; substring search mirrors `strstr` /
`std::string::find`; the effect of writing to `stdout` is explicit state
passing over a `World` record; the `std::cout.rdbuf` redirection in
`test_main.cpp` is a small state machine over a `CoutState` record.
-/

/-- `listStartsWith s p = true` iff `p` is a prefix of `s`
(character-by-character comparison, as `strncmp` would do). -/
def listStartsWith : List Char → List Char → Bool
  | _, [] => true
  | [], _ :: _ => false
  | c :: s, d :: p => c == d && listStartsWith s p

/-- `listHasSub s p = true` iff `p` occurs as a contiguous substring of `s`:
the search loop of C `strstr` / C++ `std::string::find`. -/
def listHasSub : List Char → List Char → Bool
  | [], p => listStartsWith [] p
  | c :: rest, p => listStartsWith (c :: rest) p || listHasSub rest p

/-- Substring test on `String`, mirroring `strstr(s, p) != NULL` in
`test_hello.c` and `s.find(p) != std::string::npos` in `test_hello.cpp`. -/
def strContains (s p : String) : Bool :=
  listHasSub s.data p.data

/-- The `${PROJECT_NAME}` placeholder token embedded in the greeting text of
both template variants. -/
def projectNameToken : String := "${PROJECT_NAME}"

/-- Fuel-indexed worker for literal text replacement: at each position either
the pattern matches and is replaced, or one character is copied. `fuel` bounds
the number of positions examined; `fuel = s.length` always suffices because
every step consumes at least one character of `s`. -/
def replaceAllFuel (pat repl : List Char) : Nat → List Char → List Char
  | 0, s => s
  | _ + 1, [] => []
  | n + 1, c :: rest =>
      if !pat.isEmpty && listStartsWith (c :: rest) pat then
        repl ++ replaceAllFuel pat repl n (List.drop (pat.length - 1) rest)
      else
        c :: replaceAllFuel pat repl n rest

/-- Replace every occurrence of `pat` in `s` by `repl`. -/
def replaceAll (pat repl s : List Char) : List Char :=
  replaceAllFuel pat repl s.length s

/-- Modelled from the spec: the project-scaffolding generator that resolves
placeholder tokens is not part of this repository (only the template files
are). The spec describes it as "a pure mapping from token name to replacement
string, applied via straightforward text replacement"; this definition applies
that replacement for the `${PROJECT_NAME}` token. -/
def substProjectName (name tmpl : String) : String :=
  ⟨replaceAll projectNameToken.data name.data tmpl.data⟩

/-- Ambient observable state: standard output, standard error, and a file
store. Only `stdout` is ever touched by the template code; the other fields
exist so that frame conditions are contentful. -/
structure World where
  stdout : String
  stderr : String
  fs : List (String × String)
deriving DecidableEq

/-- One write of `s` to standard output. -/
def writeStdout (w : World) (s : String) : World :=
  { w with stdout := w.stdout ++ s }

namespace Cxx

/-- `get_greeting` from `templates/cxx/src/hello.cpp` (C++ namespace
`__NAME__`): returns the literal greeting, with the `${PROJECT_NAME}`
placeholder still unresolved in the stored template. -/
def get_greeting : String :=
  "Hello from ${PROJECT_NAME}!\nThis is a C++ project template."

/-- `get_greeting` as a state transformer: the C++ body is a single `return`
of a string literal, so it reads and writes no ambient state. -/
def get_greeting_run (w : World) : String × World :=
  (get_greeting, w)

/-- `print_greeting` from `templates/cxx/src/hello.cpp`:
`std::cout << get_greeting() << std::endl;` — two stream insertions, the
second producing the newline (the flush of `std::endl` does not change the
output text). -/
def print_greeting_run (w : World) : World :=
  let gw := get_greeting_run w
  writeStdout (writeStdout gw.2 gw.1) "\n"

end Cxx

namespace CVariant

/-- Modelled from the spec: the C implementation file of `get_greeting` is not
in the repository — only its declaration in
`templates/c/include/__NAME__/hello.h` and its test `test_hello.c` are. Per
the spec, the C variant returns a greeting containing "Hello from" and
"C project", with the `${PROJECT_NAME}` display token embedded, in the same
shape as the C++ variant's greeting. -/
def get_greeting : String :=
  "Hello from ${PROJECT_NAME}!\nThis is a C project template."

/-- Modelled from the spec: the C implementation of `print_greeting` is not in
the repository (only its declaration is). Per the spec it "writes exactly the
greeting text followed by a single trailing newline to standard output, and
nothing else". -/
def print_greeting_run (w : World) : World :=
  writeStdout w (get_greeting ++ "\n")

end CVariant

/-- Result of running a test process: a normal return with an exit code, or an
abort caused by a failed `assert`. -/
inductive TestOutcome where
  | exit (code : Nat)
  | abort
deriving DecidableEq

/-- `true` exactly on the `abort` outcome. -/
def TestOutcome.isAbort : TestOutcome → Bool
  | .abort => true
  | .exit _ => false

/-- `main` of `templates/c/tests/test_hello.c`, as a function of the greeting
returned by `get_greeting`: the NULL check cannot fail in the embedding (a
returned `String` is never NULL); then `assert(strstr(greeting, "Hello from"))`
and `assert(strstr(greeting, "C project"))`; on success the test prints
"All tests passed!" and returns 0. -/
def cTestHello (greeting : String) : TestOutcome :=
  if strContains greeting "Hello from" = false then .abort
  else if strContains greeting "C project" = false then .abort
  else .exit 0

/-- `main` of `templates/cxx/tests/test_hello.cpp`, as a function of the
greeting: `assert(!greeting.empty())`, then the two substring asserts for
"Hello from" and "C++ project"; on success it prints "All tests passed!" and
returns 0. -/
def cxxTestHello (greeting : String) : TestOutcome :=
  if greeting.isEmpty then .abort
  else if strContains greeting "Hello from" = false then .abort
  else if strContains greeting "C++ project" = false then .abort
  else .exit 0

/-- Which stream buffer `std::cout` currently forwards to in
`test_main.cpp`: the process's original buffer, or the buffer of the local
`std::ostringstream captured_output`. -/
inductive CoutBuf where
  | original
  | captured
deriving DecidableEq

/-- State of `std::cout` during `test_main.cpp`: the buffer it currently
points at, the text accumulated in the original buffer, and the text
accumulated in `captured_output`. -/
structure CoutState where
  buf : CoutBuf
  originalOut : String
  capturedOut : String
deriving DecidableEq

/-- One `std::cout << text` write: the text lands in whichever buffer `cout`
currently points at. -/
def coutWrite (s : CoutState) (text : String) : CoutState :=
  match s.buf with
  | .original => { s with originalOut := s.originalOut ++ text }
  | .captured => { s with capturedOut := s.capturedOut ++ text }

/-- The success message printed by `test_main.cpp` (with the newline of
`std::endl`). -/
def passMessage : String := "Test passed: hello() output is correct\n"

/-- The failure message printed by `test_main.cpp` (with the newline of
`std::endl`); the C++ literal contains an escaped backslash, so the printed
text shows a literal backslash-n. -/
def failMessage (output : String) : String :=
  "Test failed: expected " ++ "\x27Hello, World!\\n\x27, got \x27" ++ output ++ "\x27\n"

/-- `main` of `templates/cxx/tests/test_main.cpp`. The `hello()` function it
calls is not defined anywhere in the repository; its effect is abstracted as
writing some string `helloOut` to `std::cout`. The steps mirror the source:
save `cout`'s buffer, redirect `cout` into `captured_output`, run `hello()`,
restore the saved buffer, then compare the captured text with
"Hello, World!\n" and print the verdict, returning 0 on a match and 1
otherwise. -/
def testMainRun (helloOut : String) (stdout0 : String) : CoutState × Nat :=
  let s0 : CoutState := { buf := .original, originalOut := stdout0, capturedOut := "" }
  let saved := s0.buf
  let s1 : CoutState := { s0 with buf := .captured }
  let s2 := coutWrite s1 helloOut
  let s3 : CoutState := { s2 with buf := saved }
  let output := s2.capturedOut
  if output = "Hello, World!\n" then
    (coutWrite s3 passMessage, 0)
  else
    (coutWrite s3 (failMessage output), 1)

/-- The process outcome of `test_main.cpp`: the source contains no `assert`,
so the process always returns normally with the code computed by
`testMainRun`. -/
def testMainOutcome (helloOut : String) : TestOutcome :=
  .exit (testMainRun helloOut "").2

/-- C1: with the `${PROJECT_NAME}` substitution resolved to "demo", the C++
variant's `get_greeting` yields exactly
"Hello from demo!\nThis is a C++ project template.", with a literal newline
between the two sentences. -/
theorem c1_cxx_greeting_demo :
    substProjectName "demo" Cxx.get_greeting =
      "Hello from demo!\nThis is a C++ project template." := by
  decide

/-- C2: for both language variants, `print_greeting` appends to standard
output exactly the string returned by `get_greeting` followed by a single
trailing newline, and changes nothing else. -/
theorem c2_print_greeting_exact_output : ∀ w : World,
    (Cxx.print_greeting_run w).stdout = w.stdout ++ (Cxx.get_greeting ++ "\n") ∧
    (Cxx.print_greeting_run w).stderr = w.stderr ∧
    (Cxx.print_greeting_run w).fs = w.fs ∧
    (CVariant.print_greeting_run w).stdout = w.stdout ++ (CVariant.get_greeting ++ "\n") ∧
    (CVariant.print_greeting_run w).stderr = w.stderr ∧
    (CVariant.print_greeting_run w).fs = w.fs := by
  intro w
  refine ⟨?_, rfl, rfl, rfl, rfl, rfl⟩
  simp [Cxx.print_greeting_run, Cxx.get_greeting_run, writeStdout, String.append_assoc]

/-- C3: both variants' `get_greeting` return a non-empty string containing the
substring "Hello from". -/
theorem c3_greetings_contain_hello_from :
    Cxx.get_greeting.isEmpty = false ∧
    strContains Cxx.get_greeting "Hello from" = true ∧
    CVariant.get_greeting.isEmpty = false ∧
    strContains CVariant.get_greeting "Hello from" = true := by
  decide

/-- C4: the C variant's greeting contains "C project" and the C++ variant's
greeting contains "C++ project". -/
theorem c4_language_substrings :
    strContains CVariant.get_greeting "C project" = true ∧
    strContains Cxx.get_greeting "C++ project" = true := by
  decide

/-- C9: the C++ variant's greeting does not contain the substring "C project"
(so the C test's substring check fails on it), while it does contain
"C++ project" and the C variant's greeting does contain "C project": the two
required substrings discriminate between the variants. -/
theorem c9_substrings_discriminate :
    strContains Cxx.get_greeting "C project" = false ∧
    strContains Cxx.get_greeting "C++ project" = true ∧
    strContains CVariant.get_greeting "C project" = true := by
  decide

/-- Helper: the Bool-level pass condition of the C greeting test. -/
def cTestPass (g : String) : Bool :=
  strContains g "Hello from" && strContains g "C project"

/-- Helper: the Bool-level pass condition of the C++ greeting test. -/
def cxxTestPass (g : String) : Bool :=
  !g.isEmpty && strContains g "Hello from" && strContains g "C++ project"

/-- C5 counterexample: `test_main.cpp` is a test program of the repository,
yet it does not assert the two required substring conditions: it accepts
(exit 0) the output "Hello, World!\n", which contains neither "Hello from"
nor "C++ project", and on a failing output ("") it returns 1 normally instead
of aborting via an assertion. -/
theorem c5_counterexample :
    (testMainOutcome "Hello, World!\n" = TestOutcome.exit 0 ∧
      strContains "Hello, World!\n" "Hello from" = false ∧
      strContains "Hello, World!\n" "C++ project" = false) ∧
    (testMainOutcome "" = TestOutcome.exit 1 ∧
      (testMainOutcome "").isAbort = false) := by
  decide

/-- C5 (amended): the two greeting test programs (`test_hello.c` and
`test_hello.cpp`) exit 0 exactly when their required substring conditions on
the greeting hold, and abort via an assertion failure otherwise; the third
test program, `test_main.cpp`, never aborts. -/
theorem c5_amended_greeting_tests_assert : ∀ g : String,
    (cTestHello g = TestOutcome.exit 0 ↔ cTestPass g = true) ∧
    (cTestHello g = TestOutcome.abort ↔ cTestPass g = false) ∧
    (cxxTestHello g = TestOutcome.exit 0 ↔ cxxTestPass g = true) ∧
    (cxxTestHello g = TestOutcome.abort ↔ cxxTestPass g = false) ∧
    (testMainOutcome g).isAbort = false := by
  intro g
  refine ⟨?_, ?_, ?_, ?_, ?_⟩
  · cases h1 : strContains g "Hello from" <;>
      cases h2 : strContains g "C project" <;>
      simp [cTestHello, cTestPass, h1, h2]
  · cases h1 : strContains g "Hello from" <;>
      cases h2 : strContains g "C project" <;>
      simp [cTestHello, cTestPass, h1, h2]
  · cases h0 : g.isEmpty <;>
      cases h1 : strContains g "Hello from" <;>
      cases h2 : strContains g "C++ project" <;>
      simp [cxxTestHello, cxxTestPass, h0, h1, h2]
  · cases h0 : g.isEmpty <;>
      cases h1 : strContains g "Hello from" <;>
      cases h2 : strContains g "C++ project" <;>
      simp [cxxTestHello, cxxTestPass, h0, h1, h2]
  · by_cases h : ("" : String) ++ g = "Hello, World!\n" <;>
      simp [testMainOutcome, testMainRun, coutWrite, TestOutcome.isAbort, h]

/-- C6 counterexample: with `${PROJECT_NAME}` resolved to "demo", the
substituted C++ greeting satisfies both required substring checks, yet the
C++ test harness `test_main.cpp` does not exit successfully on it: fed the
greeting as captured output it returns 1, because it compares against
"Hello, World!\n" exactly rather than verifying the required substrings. -/
theorem c6_counterexample :
    strContains (substProjectName "demo" Cxx.get_greeting) "Hello from" = true ∧
    strContains (substProjectName "demo" Cxx.get_greeting) "C++ project" = true ∧
    testMainOutcome (substProjectName "demo" Cxx.get_greeting ++ "\n") =
      TestOutcome.exit 1 := by
  decide

/-- C6 (amended): with `${PROJECT_NAME}` resolved to "demo", the C++ greeting
test harness `test_hello.cpp` exits successfully (0) after verifying the
required substrings; the other C++ harness, `test_main.cpp`, performs no
substring verification and returns 0 exactly when the captured output of the
separate `hello()` function is "Hello, World!\n". -/
theorem c6_amended_harness_results :
    cxxTestHello (substProjectName "demo" Cxx.get_greeting) = TestOutcome.exit 0 ∧
    ∀ out : String,
      (testMainOutcome out = TestOutcome.exit 0 ↔ out = "Hello, World!\n") := by
  refine ⟨by decide, ?_⟩
  intro out
  by_cases h : out = "Hello, World!\n" <;>
    simp [testMainOutcome, testMainRun, coutWrite, String.empty_append, h]

/-- C7: `get_greeting` is deterministic and side-effect-free — any two calls,
from any two states, return equal strings and leave the state unchanged — and
`print_greeting`'s whole effect on the world is one write of the greeting plus
newline to standard output. -/
theorem c7_purity : ∀ w w' : World,
    (Cxx.get_greeting_run w).1 = (Cxx.get_greeting_run w').1 ∧
    (Cxx.get_greeting_run w).2 = w ∧
    Cxx.print_greeting_run w = writeStdout w (Cxx.get_greeting ++ "\n") := by
  intro w w'
  refine ⟨rfl, rfl, ?_⟩
  simp [Cxx.print_greeting_run, Cxx.get_greeting_run, writeStdout, String.append_assoc]

/-- C8: `test_main.cpp` never aborts — it returns 0 exactly when the captured
output of `hello()` is "Hello, World!\n", and 1 for every other captured
output. -/
theorem c8_test_main_exit_codes : ∀ out : String,
    (testMainOutcome out).isAbort = false ∧
    (testMainOutcome out = TestOutcome.exit 0 ↔ out = "Hello, World!\n") ∧
    (testMainOutcome out = TestOutcome.exit 1 ↔ ¬ out = "Hello, World!\n") := by
  intro out
  by_cases h : out = "Hello, World!\n" <;>
    simp [testMainOutcome, testMainRun, coutWrite, TestOutcome.isAbort,
      String.empty_append, h]

/-- C10: in `test_main.cpp`, `std::cout` ends pointing at the original buffer
saved at entry, and on both the pass path and the fail path the verdict
message lands in the original buffer (so the restore happens before the
message is printed), while the captured buffer holds only `hello()`'s
output. -/
theorem c10_cout_buffer_restored : ∀ helloOut stdout0 : String,
    (testMainRun helloOut stdout0).1.buf = CoutBuf.original ∧
    (testMainRun helloOut stdout0).1.capturedOut = helloOut ∧
    (testMainRun helloOut stdout0).1.originalOut =
      stdout0 ++ (if helloOut = "Hello, World!\n" then passMessage
                  else failMessage helloOut) := by
  intro h s
  by_cases hc : h = "Hello, World!\n" <;>
    simp [testMainRun, coutWrite, String.empty_append, hc]
